import Mathlib

/-!
Shallow embedding of `src/async.js`, a teaching script demonstrating three
styles of asynchronous control flow (callbacks, promise chaining, async/await)
over toy tasks: reading files, chaining dependent reads, a delayed countdown,
and fetching a remote page.

Modelling conventions:
* A file system is a map from file names to either raw contents or an error
  string (`Fs`); `fs.readFile` / `readFilePromise` consult it.
* Each demonstration produces a trace of observable events (`Ev`): file reads
  issued and console lines printed.  Promise chains are modelled by `PRun`,
  a trace plus an `Except`-settlement, with `pThen` / `pCatch` mirroring
  `.then` / `.catch` (an `await` inside `try` is the same sequencing).
* The event-loop interleaving demo is modelled by splitting output into the
  synchronous phase and the deferred phase resumed after the enclosing
  synchronous block completes.
* Timed countdowns carry a virtual clock: each trace entry is
  (cumulative milliseconds, message).
-/

namespace Async

/-- JS `String.prototype.slice(start, end)`: negative indices count from the
end, indices are clamped to `[0, length]`, and the result is the (possibly
empty) span between the normalised bounds. -/
def jsSlice (s : String) (start stop : Int) : String :=
  let cs := s.data
  let len : Int := cs.length
  let norm : Int → Nat := fun i => (max 0 (min len (if i < 0 then len + i else i))).toNat
  ⟨(cs.take (norm stop)).drop (norm start)⟩

/-- Line 4: `const string = data => data.toString().slice(0, -1)` — the shared
helper that renders byte data as text and trims its trailing character. -/
def string (data : String) : String := jsSlice data 0 (-1)

/-- A file system: maps a file name to its raw contents, or to the error the
read fails with (missing/unreadable file). -/
abbrev Fs := String → Except String String

/-- Observable events of a file-reading demonstration: a file read being
issued, or a line printed to the console. -/
inductive Ev
  | read (name : String)
  | log (line : String)
deriving DecidableEq, Repr

/-- The console lines of a trace, in order. -/
def logsOf (t : List Ev) : List String :=
  t.filterMap fun e => match e with | .log l => some l | .read _ => none

/-- The file reads issued by a trace, in order. -/
def readsOf (t : List Ev) : List String :=
  t.filterMap fun e => match e with | .read n => some n | .log _ => none

/-- A settled promise-chain run: the trace of events it produced and the
settlement of the resulting promise (`ok` = fulfilled, `error` = rejected). -/
structure PRun (α : Type) where
  trace : List Ev
  result : Except String α
deriving Repr

/-- `.then(onFulfilled)`: if the promise fulfilled, run the handler and append
its events; a rejection passes through untouched.  `await` inside an `async`
function sequences the continuation the same way. -/
def pThen {α β : Type} (p : PRun α) (f : α → PRun β) : PRun β :=
  match p.result with
  | .ok a => ⟨p.trace ++ (f a).trace, (f a).result⟩
  | .error e => ⟨p.trace, .error e⟩

/-- `.catch(onRejected)`: a fulfilled promise passes through; on rejection the
handler runs and its own settlement becomes the chain's settlement.  A
`try { ... } catch (err) { ... }` around awaits behaves identically. -/
def pCatch {α : Type} (p : PRun α) (h : String → PRun α) : PRun α :=
  match p.result with
  | .ok _ => p
  | .error e => ⟨p.trace ++ (h e).trace, (h e).result⟩

/-- Line 3: `promisify(fs.readFile)` — issues the read and settles with the
file's contents or the read error. -/
def readFilePromise (fs : Fs) (name : String) : PRun String :=
  ⟨[.read name], fs name⟩

/-- A `console.log` of one line, fulfilling with `undefined` (modelled `()`). -/
def logP (line : String) : PRun Unit := ⟨[.log line], .ok ()⟩

/-- The static error prefix `"Oops, there was an error:"` used by the callback
and `.then` variants (lines 9, 20, 26, 32, 36, 51, 96). -/
def oopsLower : String := "Oops, there was an error:"

/-- The static error prefix `"Oops, There was an error:"` used by the
async/await variants (lines 66, 82, 107). -/
def oopsUpper : String := "Oops, There was an error:"

/-- `console.log(prefix, err)` prints the two arguments space-separated. -/
def errLine (pre err : String) : String := pre ++ " " ++ err

/-- Lines 8–11: the chapter-1 top-level `fs.readFile("one", (err, data) => ...)`. -/
def chapter1Read (fs : Fs) : List Ev :=
  Ev.read "one" ::
    match fs "one" with
    | .error err => [Ev.log (errLine oopsLower err)]
    | .ok data => [Ev.log (string data)]

/-- Lines 17–20 and 24–26: the chapter-2 top-level
`readFilePromise("one").then(data => ...).catch(err => ...)` (written twice in
the source with identical behaviour). -/
def chapter2Read (fs : Fs) : PRun Unit :=
  pCatch
    (pThen (readFilePromise fs "one") (fun data => logP (string data)))
    (fun err => logP (errLine oopsLower err))

/-- Lines 30–41: `scavengerHuntWithCallbacks` — nested callbacks reading
`fileName1`, then the file its trimmed contents name. -/
def scavengerHuntWithCallbacks (fs : Fs) (fileName1 : String) : List Ev :=
  Ev.read fileName1 ::
    match fs fileName1 with
    | .error err => [Ev.log (errLine oopsLower err)]
    | .ok data1 =>
      let fileName2 := string data1
      Ev.read fileName2 ::
        match fs fileName2 with
        | .error err => [Ev.log (errLine oopsLower err)]
        | .ok data2 => [Ev.log (string data2)]

/-- Lines 47–52: `scavengerHuntWithPromiseDotThen` — the same hunt as a
`.then` chain with a single trailing `.catch`, returning the chain. -/
def scavengerHuntWithPromiseDotThen (fs : Fs) (fileName1 : String) : PRun Unit :=
  pCatch
    (pThen
      (pThen (readFilePromise fs fileName1)
        (fun data1 => readFilePromise fs (string data1)))
      (fun data2 => logP (string data2)))
    (fun err => logP (errLine oopsLower err))

/-- Lines 74–84 (and the identical 60–68): `scavengerHuntWithPromiseAsyncAwait`
— the same hunt with `await` inside `try`, the `catch` logging with the
upper-case prefix. -/
def scavengerHuntWithPromiseAsyncAwait (fs : Fs) (fileName1 : String) : PRun Unit :=
  pCatch
    (pThen (readFilePromise fs fileName1) (fun data1 =>
      pThen (readFilePromise fs (string data1)) (fun data2 =>
        logP (string data2))))
    (fun err => logP (errLine oopsUpper err))

/-- Lines 88–97: `logChainWithDotThen` — the mutable `name2` assigned in the
first handler and read in the second is rendered as a `let` captured by the
inner continuation (the second `.then` runs only after the first). -/
def logChainWithDotThen (fs : Fs) (name1 : String) : PRun Unit :=
  pCatch
    (pThen (readFilePromise fs name1) (fun data1 =>
      let name2 := string data1
      pThen (readFilePromise fs (string data1)) (fun data2 =>
        logP (name1 ++ "=>" ++ name2 ++ "=>" ++ string data2))))
    (fun err => logP (errLine oopsLower err))

/-- Lines 101–109: `logChainWithAwait` — the same refactored hunt with
`await`, both data values in scope for the final `console.log`. -/
def logChainWithAwait (fs : Fs) (name1 : String) : PRun Unit :=
  pCatch
    (pThen (readFilePromise fs name1) (fun data1 =>
      pThen (readFilePromise fs (string data1)) (fun data2 =>
        logP (name1 ++ "=>" ++ string data1 ++ "=>" ++ string data2))))
    (fun err => logP (errLine oopsUpper err))

/-- A concrete two-level file chain: "one" holds `"two\n"`, "two" holds
`"hello!\n"`, everything else is missing. -/
def fsEx : Fs := fun n =>
  if n = "one" then Except.ok "two\n"
  else if n = "two" then Except.ok "hello!\n"
  else Except.error ("ENOENT: no such file " ++ n)

/-- A file system on which every read fails. -/
def fsBad : Fs := fun n => Except.error ("EACCES: " ++ n)

/-- The fixed external address fetched by the `getCNN` functions. -/
def cnnUrl : String := "http://www.cnn.com"

/-- The run of one `async` function (or `.then`-returning function) that
issues network requests and prints around one suspension point: the requests
it issues, the lines it prints synchronously before suspending, the lines it
prints when resumed after the awaited operation settles, and the settlement
of the promise it returns. -/
structure AsyncFnRun where
  requests : List String
  syncOut : List String
  deferredOut : List String
  result : Except String Unit
deriving Repr

/-- Lines 115–119: `getCNN_async_await` — prints marker 2, issues
`axios.get("http://www.cnn.com")` and suspends on `await`; when the request
settles it prints marker 4 on success, and on failure the `await` rethrows
out of the (handler-less) async body, rejecting the returned promise.
`net` is the settlement of the network request. -/
def getCNN_async_await (net : Except String Unit) : AsyncFnRun :=
  { requests := [cnnUrl]
    syncOut := ["2in do two things before await"]
    deferredOut := match net with | .ok _ => ["4in do two things after await"] | .error _ => []
    result := net }

/-- Lines 126–131: `getCNN_dot_then` — the same behaviour written with
`return axios.get(...).then(...)`; the rejection likewise passes through the
returned chain, which has no `.catch`. -/
def getCNN_dot_then (net : Except String Unit) : AsyncFnRun :=
  { requests := [cnnUrl]
    syncOut := ["2in do two things before await"]
    deferredOut := match net with | .ok _ => ["4in do two things after await"] | .error _ => []
    result := net }

/-- The observable outcome of the top-level block at lines 121–123: lines
printed during the synchronous phase, lines printed by deferred continuations
after that phase completes, and rejections left with no handler attached. -/
structure BlockRun where
  syncOut : List String
  deferredOut : List String
  unhandled : List String
deriving Repr

/-- Lines 121–123: `console.log("1..."); getCNN_async_await(); console.log("3...")`.
The call runs the async body synchronously up to its first `await` in the
middle of the block; its continuation runs only after the whole synchronous
block has completed.  No handler is attached to the returned promise, so a
rejection becomes an unhandled rejection. -/
def interleavingBlock (net : Except String Unit) : BlockRun :=
  let r := getCNN_async_await net
  { syncOut := "1before do two things" :: r.syncOut ++ ["3after do two things"]
    deferredOut := r.deferredOut
    unhandled := match r.result with | .ok _ => [] | .error e => [e] }

/-- Lines 136–138: `waitTwoSecondsWithCallback(callback)` schedules the
callback 2000 ms after the current instant; the callback receives the instant
at which it fires and yields the timed lines printed from then on. -/
def waitTwoSecondsWithCallback (callback : Nat → List (Nat × String)) :
    Nat → List (Nat × String) :=
  fun now => callback (now + 2000)

/-- A timed promise-chain run, started at a virtual instant: the timestamped
lines it prints, the instant at which it settles, and its value. -/
structure TRun (α : Type) where
  trace : List (Nat × String)
  now : Nat
  value : α
deriving Repr

/-- A timed promise: a function from the start instant to its run. -/
def TP (α : Type) : Type := Nat → TRun α

/-- `.then` / `await` on timed promises: the continuation starts when the
first promise settles. -/
def tThen {α β : Type} (p : TP α) (f : α → TP β) : TP β := fun t =>
  let r := p t
  let q := f r.value r.now
  ⟨r.trace ++ q.trace, q.now, q.value⟩

/-- Lines 157–159: `waitTwoSecondsWithPromise` — settles 2000 ms after it is
started, printing nothing. -/
def waitTwoSecondsWithPromise : TP Unit := fun t => ⟨[], t + 2000, ()⟩

/-- A `console.log` in a timed chain: prints at the current instant. -/
def tLog (line : String) : TP Unit := fun t => ⟨[(t, line)], t, ()⟩

/-- Lines 141–154: `countDownWithCallback` — four nested
`waitTwoSecondsWithCallback` calls, each printing its message when its timer
fires. -/
def countDownWithCallback : Nat → List (Nat × String) :=
  waitTwoSecondsWithCallback (fun t1 =>
    (t1, "You have six seconds, starting now!!") ::
    waitTwoSecondsWithCallback (fun t2 =>
      (t2, "You have four seconds left.") ::
      waitTwoSecondsWithCallback (fun t3 =>
        (t3, "You have just two seconds left. You\x27d better hurry!!") ::
        waitTwoSecondsWithCallback (fun t4 =>
          [(t4, "That\x27s it!! Time\x27s up!!")]) t3) t2) t1)

/-- Lines 162–179: `countDownWithPromiseDotThen` — a flat `.then` chain; each
handler prints its message and returns the next two-second wait. -/
def countDownWithPromiseDotThen : TP Unit :=
  tThen
    (tThen
      (tThen
        (tThen waitTwoSecondsWithPromise (fun _ =>
          tThen (tLog "You have six seconds, starting now!!")
            (fun _ => waitTwoSecondsWithPromise)))
        (fun _ =>
          tThen (tLog "You have four seconds left.")
            (fun _ => waitTwoSecondsWithPromise)))
      (fun _ =>
        tThen (tLog "You have just two seconds left. You\x27d better hurry!!")
          (fun _ => waitTwoSecondsWithPromise)))
    (fun _ => tLog "That\x27s it! Time\x27s up!!")

/-- Lines 182–191: `countDownWithPromiseAsyncAwait` — the same chain written
with `await` before each message. -/
def countDownWithPromiseAsyncAwait : TP Unit :=
  tThen waitTwoSecondsWithPromise (fun _ =>
    tThen (tLog "You have six seconds, starting now!!") (fun _ =>
      tThen waitTwoSecondsWithPromise (fun _ =>
        tThen (tLog "You have four seconds left.") (fun _ =>
          tThen waitTwoSecondsWithPromise (fun _ =>
            tThen (tLog "You have just two seconds left. You\x27d really better hurry!!") (fun _ =>
              tThen waitTwoSecondsWithPromise (fun _ =>
                tLog "That\x27s it! Time\x27s up!!")))))))

/-- The named demonstration functions defined by the script. -/
inductive FnName
  | scavengerHuntWithCallbacks
  | scavengerHuntWithPromiseDotThen
  | scavengerHuntWithPromiseAsyncAwait
  | logChainWithDotThen
  | logChainWithAwait
  | getCNN_async_await
  | getCNN_dot_then
  | countDownWithCallback
  | countDownWithPromiseDotThen
  | countDownWithPromiseAsyncAwait
  | newPromise
deriving DecidableEq, Repr

/-- Every demonstration function the script defines (`function ...` at top
level, excluding the helpers `string`, `readFilePromise`,
`waitTwoSecondsWithCallback` and `waitTwoSecondsWithPromise`).
`scavengerHuntWithPromiseAsyncAwait` is declared twice (lines 60 and 74) under
one name. -/
def demonstrationFunctions : List FnName :=
  [.scavengerHuntWithCallbacks, .scavengerHuntWithPromiseDotThen,
   .scavengerHuntWithPromiseAsyncAwait, .logChainWithDotThen, .logChainWithAwait,
   .getCNN_async_await, .getCNN_dot_then,
   .countDownWithCallback, .countDownWithPromiseDotThen,
   .countDownWithPromiseAsyncAwait, .newPromise]

/-- The demonstration-function calls the script makes at top level, in source
order (lines 43, 54, 70, 99, 111, 122, 193, 194, 195). -/
def loadTimeCalls : List FnName :=
  [.scavengerHuntWithCallbacks, .scavengerHuntWithPromiseDotThen,
   .scavengerHuntWithPromiseAsyncAwait, .logChainWithDotThen, .logChainWithAwait,
   .getCNN_async_await,
   .countDownWithCallback, .countDownWithPromiseDotThen,
   .countDownWithPromiseAsyncAwait]

/-- The network requests one invocation of a demonstration function issues
(`net` settles any request made): only the two `getCNN` functions call
`axios.get`; every other body contains no network operation. -/
def netRequestsOf (net : Except String Unit) : FnName → List String
  | .getCNN_async_await => (getCNN_async_await net).requests
  | .getCNN_dot_then => (getCNN_dot_then net).requests
  | _ => []

/-- All outbound network requests issued during one load of the script. -/
def loadTimeRequests (net : Except String Unit) : List String :=
  loadTimeCalls.flatMap (netRequestsOf net)

/-- The shared helper `string` is exactly "drop the final character": JS
`slice(0, -1)` agrees with `List.dropLast` on the underlying characters. -/
theorem string_eq_dropLast (s : String) : string s = ⟨s.data.dropLast⟩ := by
  have hstop : (max 0 (min (s.data.length : Int)
      (if (-1 : Int) < 0 then (s.data.length : Int) + (-1) else (-1)))).toNat
      = s.data.length - 1 := by
    rw [if_pos (by norm_num : (-1 : Int) < 0)]
    omega
  have hstart : (max 0 (min (s.data.length : Int)
      (if (0 : Int) < 0 then (s.data.length : Int) + 0 else 0))).toNat = 0 := by
    rw [if_neg (by norm_num : ¬ (0 : Int) < 0)]
    omega
  unfold string jsSlice
  dsimp only
  rw [hstop, hstart, List.drop_zero, ← List.dropLast_eq_take]

/-- C1: for every valid two-level file chain (the first file's content, with
its final character trimmed, names a second file whose trimmed content is
`string d2`), each of `scavengerHuntWithCallbacks`,
`scavengerHuntWithPromiseDotThen` and `scavengerHuntWithPromiseAsyncAwait`
prints exactly the same final string, the trimmed content of the second
file. -/
theorem c1_scavenger_variants_print_same_final_string
    (fs : Fs) (a d1 d2 : String)
    (h1 : fs a = Except.ok d1) (h2 : fs (string d1) = Except.ok d2) :
    logsOf (scavengerHuntWithCallbacks fs a) = [string d2] ∧
    logsOf (scavengerHuntWithPromiseDotThen fs a).trace = [string d2] ∧
    logsOf (scavengerHuntWithPromiseAsyncAwait fs a).trace = [string d2] := by
  refine ⟨?_, ?_, ?_⟩ <;>
    simp [scavengerHuntWithCallbacks, scavengerHuntWithPromiseDotThen,
      scavengerHuntWithPromiseAsyncAwait, pThen, pCatch, readFilePromise, logP,
      logsOf, h1, h2]

/-- Witness for C1 on the concrete chain `fsEx`. -/
theorem c1_witness :
    fsEx "one" = Except.ok "two\n" ∧ fsEx (string "two\n") = Except.ok "hello!\n" ∧
    (logsOf (scavengerHuntWithCallbacks fsEx "one") = [string "hello!\n"] ∧
     logsOf (scavengerHuntWithPromiseDotThen fsEx "one").trace = [string "hello!\n"] ∧
     logsOf (scavengerHuntWithPromiseAsyncAwait fsEx "one").trace = [string "hello!\n"]) :=
  ⟨rfl, rfl,
    c1_scavenger_variants_print_same_final_string fsEx "one" "two\n" "hello!\n" rfl rfl⟩

/-- C2: when the first read fails, each scavenger variant's whole trace is
the single failed read followed by the error notice: exactly one file read is
attempted (no second read) and an error line is printed. -/
theorem c2_first_read_failure_logs_and_stops
    (fs : Fs) (a e : String) (h : fs a = Except.error e) :
    scavengerHuntWithCallbacks fs a = [Ev.read a, Ev.log (errLine oopsLower e)] ∧
    (scavengerHuntWithPromiseDotThen fs a).trace = [Ev.read a, Ev.log (errLine oopsLower e)] ∧
    (scavengerHuntWithPromiseAsyncAwait fs a).trace = [Ev.read a, Ev.log (errLine oopsUpper e)] ∧
    readsOf (scavengerHuntWithCallbacks fs a) = [a] ∧
    readsOf (scavengerHuntWithPromiseDotThen fs a).trace = [a] ∧
    readsOf (scavengerHuntWithPromiseAsyncAwait fs a).trace = [a] := by
  refine ⟨?_, ?_, ?_, ?_, ?_, ?_⟩ <;>
    simp [scavengerHuntWithCallbacks, scavengerHuntWithPromiseDotThen,
      scavengerHuntWithPromiseAsyncAwait, pThen, pCatch, readFilePromise, logP,
      readsOf, h]

/-- Witness for C2 on `fsBad`, where every read fails. -/
theorem c2_witness :
    fsBad "one" = Except.error "EACCES: one" ∧
    (scavengerHuntWithCallbacks fsBad "one"
        = [Ev.read "one", Ev.log (errLine oopsLower "EACCES: one")] ∧
     (scavengerHuntWithPromiseDotThen fsBad "one").trace
        = [Ev.read "one", Ev.log (errLine oopsLower "EACCES: one")] ∧
     (scavengerHuntWithPromiseAsyncAwait fsBad "one").trace
        = [Ev.read "one", Ev.log (errLine oopsUpper "EACCES: one")] ∧
     readsOf (scavengerHuntWithCallbacks fsBad "one") = ["one"] ∧
     readsOf (scavengerHuntWithPromiseDotThen fsBad "one").trace = ["one"] ∧
     readsOf (scavengerHuntWithPromiseAsyncAwait fsBad "one").trace = ["one"]) :=
  ⟨rfl, c2_first_read_failure_logs_and_stops fsBad "one" "EACCES: one" rfl⟩

/-- C3: in the interleaving demonstration at lines 121–123, the synchronous
phase prints markers 1, 2 and 3 in source order whatever the network request
does, and marker 4 appears only in the deferred phase, after the enclosing
synchronous block has completed (and only when the request succeeds). -/
theorem c3_interleaving_markers_in_order (net : Except String Unit) :
    (interleavingBlock net).syncOut =
      ["1before do two things", "2in do two things before await",
       "3after do two things"] ∧
    (interleavingBlock net).deferredOut =
      (match net with
        | Except.ok _ => ["4in do two things after await"]
        | Except.error _ => []) ∧
    "4in do two things after await" ∉ (interleavingBlock net).syncOut := by
  cases net <;> refine ⟨rfl, rfl, ?_⟩ <;>
    simp [interleavingBlock, getCNN_async_await]

/-- C4 counterexample: when the network request of `getCNN_async_await`
fails, nothing is logged about it (the printed output is just the three
synchronous markers) and the error escapes as an unhandled rejection — so not
every failure of an asynchronous step is caught and logged. -/
theorem c4_counterexample_getcnn_failure_escapes :
    (interleavingBlock (Except.error "getaddrinfo ENOTFOUND www.cnn.com")).unhandled
        = ["getaddrinfo ENOTFOUND www.cnn.com"] ∧
    (interleavingBlock (Except.error "getaddrinfo ENOTFOUND www.cnn.com")).syncOut
        ++ (interleavingBlock (Except.error "getaddrinfo ENOTFOUND www.cnn.com")).deferredOut
        = ["1before do two things", "2in do two things before await",
           "3after do two things"] :=
  ⟨rfl, rfl⟩

/-- C4 (amended): in the file-reading functions — the chapter-1 and chapter-2
top-level reads, the three scavenger hunts and the two log-chain functions —
every failure of an asynchronous step (a failing first read and a failing
second read alike) is caught at the nearest enclosing boundary and logged
with the function's static prefix, and the returned promises never reject,
whatever the file system; but `getCNN_async_await` attaches no handler, so a
failed network request's error propagates to its returned promise and, no
handler being attached at the call site either, escapes as an unhandled
rejection.  The per-function log characterisations below cover every case of
the file system, so each possible failure is shown to be logged. -/
theorem c4_amended_file_reads_catch_getcnn_escapes
    (fs : Fs) (n : String) (net : Except String Unit) :
    (scavengerHuntWithPromiseDotThen fs n).result = Except.ok () ∧
    (scavengerHuntWithPromiseAsyncAwait fs n).result = Except.ok () ∧
    (logChainWithDotThen fs n).result = Except.ok () ∧
    (logChainWithAwait fs n).result = Except.ok () ∧
    (chapter2Read fs).result = Except.ok () ∧
    logsOf (chapter1Read fs) =
      (match fs "one" with
        | Except.error e => [errLine oopsLower e]
        | Except.ok d => [string d]) ∧
    logsOf (chapter2Read fs).trace =
      (match fs "one" with
        | Except.error e => [errLine oopsLower e]
        | Except.ok d => [string d]) ∧
    logsOf (scavengerHuntWithCallbacks fs n) =
      (match fs n with
        | Except.error e => [errLine oopsLower e]
        | Except.ok d1 =>
          match fs (string d1) with
          | Except.error e => [errLine oopsLower e]
          | Except.ok d2 => [string d2]) ∧
    logsOf (scavengerHuntWithPromiseDotThen fs n).trace =
      (match fs n with
        | Except.error e => [errLine oopsLower e]
        | Except.ok d1 =>
          match fs (string d1) with
          | Except.error e => [errLine oopsLower e]
          | Except.ok d2 => [string d2]) ∧
    logsOf (scavengerHuntWithPromiseAsyncAwait fs n).trace =
      (match fs n with
        | Except.error e => [errLine oopsUpper e]
        | Except.ok d1 =>
          match fs (string d1) with
          | Except.error e => [errLine oopsUpper e]
          | Except.ok d2 => [string d2]) ∧
    logsOf (logChainWithDotThen fs n).trace =
      (match fs n with
        | Except.error e => [errLine oopsLower e]
        | Except.ok d1 =>
          match fs (string d1) with
          | Except.error e => [errLine oopsLower e]
          | Except.ok d2 => [n ++ "=>" ++ string d1 ++ "=>" ++ string d2]) ∧
    logsOf (logChainWithAwait fs n).trace =
      (match fs n with
        | Except.error e => [errLine oopsUpper e]
        | Except.ok d1 =>
          match fs (string d1) with
          | Except.error e => [errLine oopsUpper e]
          | Except.ok d2 => [n ++ "=>" ++ string d1 ++ "=>" ++ string d2]) ∧
    (getCNN_async_await net).result = net ∧
    (interleavingBlock net).unhandled =
      (match net with | Except.ok _ => [] | Except.error e2 => [e2]) := by
  refine ⟨?_, ?_, ?_, ?_, ?_, ?_, ?_, ?_, ?_, ?_, ?_, ?_, ?_, ?_⟩
  case refine_1 =>
    cases h1 : fs n with
    | error e => simp [scavengerHuntWithPromiseDotThen, pThen, pCatch, readFilePromise, logP, h1]
    | ok d1 =>
      cases h2 : fs (string d1) <;>
        simp [scavengerHuntWithPromiseDotThen, pThen, pCatch, readFilePromise, logP, h1, h2]
  case refine_2 =>
    cases h1 : fs n with
    | error e => simp [scavengerHuntWithPromiseAsyncAwait, pThen, pCatch, readFilePromise, logP, h1]
    | ok d1 =>
      cases h2 : fs (string d1) <;>
        simp [scavengerHuntWithPromiseAsyncAwait, pThen, pCatch, readFilePromise, logP, h1, h2]
  case refine_3 =>
    cases h1 : fs n with
    | error e => simp [logChainWithDotThen, pThen, pCatch, readFilePromise, logP, h1]
    | ok d1 =>
      cases h2 : fs (string d1) <;>
        simp [logChainWithDotThen, pThen, pCatch, readFilePromise, logP, h1, h2]
  case refine_4 =>
    cases h1 : fs n with
    | error e => simp [logChainWithAwait, pThen, pCatch, readFilePromise, logP, h1]
    | ok d1 =>
      cases h2 : fs (string d1) <;>
        simp [logChainWithAwait, pThen, pCatch, readFilePromise, logP, h1, h2]
  case refine_5 =>
    cases hone : fs "one" <;>
      simp [chapter2Read, pThen, pCatch, readFilePromise, logP, hone]
  case refine_6 =>
    cases hone : fs "one" <;> simp [chapter1Read, logsOf, hone]
  case refine_7 =>
    cases hone : fs "one" <;>
      simp [chapter2Read, pThen, pCatch, readFilePromise, logP, logsOf, hone]
  case refine_8 =>
    cases h1 : fs n with
    | error e => simp [scavengerHuntWithCallbacks, logsOf, h1]
    | ok d1 =>
      cases h2 : fs (string d1) <;> simp [scavengerHuntWithCallbacks, logsOf, h1, h2]
  case refine_9 =>
    cases h1 : fs n with
    | error e =>
      simp [scavengerHuntWithPromiseDotThen, pThen, pCatch, readFilePromise, logP, logsOf, h1]
    | ok d1 =>
      cases h2 : fs (string d1) <;>
        simp [scavengerHuntWithPromiseDotThen, pThen, pCatch, readFilePromise, logP, logsOf, h1, h2]
  case refine_10 =>
    cases h1 : fs n with
    | error e =>
      simp [scavengerHuntWithPromiseAsyncAwait, pThen, pCatch, readFilePromise, logP, logsOf, h1]
    | ok d1 =>
      cases h2 : fs (string d1) <;>
        simp [scavengerHuntWithPromiseAsyncAwait, pThen, pCatch, readFilePromise, logP, logsOf, h1, h2]
  case refine_11 =>
    cases h1 : fs n with
    | error e =>
      simp [logChainWithDotThen, pThen, pCatch, readFilePromise, logP, logsOf, h1]
    | ok d1 =>
      cases h2 : fs (string d1) <;>
        simp [logChainWithDotThen, pThen, pCatch, readFilePromise, logP, logsOf, h1, h2]
  case refine_12 =>
    cases h1 : fs n with
    | error e =>
      simp [logChainWithAwait, pThen, pCatch, readFilePromise, logP, logsOf, h1]
    | ok d1 =>
      cases h2 : fs (string d1) <;>
        simp [logChainWithAwait, pThen, pCatch, readFilePromise, logP, logsOf, h1, h2]
  case refine_13 => rfl
  case refine_14 => cases net <;> rfl

/-- C5 counterexample: the three countdown variants do not print the same
sequence of four messages — the callback variant's wording differs from the
`.then` variant's, which differs from the async/await variant's. -/
theorem c5_counterexample_countdown_messages_differ :
    ¬ ((countDownWithCallback 0).map Prod.snd
          = ((countDownWithPromiseDotThen 0).trace).map Prod.snd ∧
       ((countDownWithPromiseDotThen 0).trace).map Prod.snd
          = ((countDownWithPromiseAsyncAwait 0).trace).map Prod.snd) := by
  decide

/-- C5 (amended): the three countdown variants print four messages at the
same cumulative delays (2000, 4000, 6000, 8000 ms) and agree on the first two
messages; but the callback variant's fourth message differs from the `.then`
variant's, and the async/await variant's third message differs from the
`.then` variant's, so the sequences are not identical. -/
theorem c5_amended_countdown_same_delays_divergent_wording :
    (countDownWithCallback 0).map Prod.fst = [2000, 4000, 6000, 8000] ∧
    ((countDownWithPromiseDotThen 0).trace).map Prod.fst = [2000, 4000, 6000, 8000] ∧
    ((countDownWithPromiseAsyncAwait 0).trace).map Prod.fst = [2000, 4000, 6000, 8000] ∧
    ((countDownWithCallback 0).map Prod.snd).take 2
      = (((countDownWithPromiseDotThen 0).trace).map Prod.snd).take 2 ∧
    (((countDownWithPromiseDotThen 0).trace).map Prod.snd).take 2
      = (((countDownWithPromiseAsyncAwait 0).trace).map Prod.snd).take 2 ∧
    ((countDownWithCallback 0).map Prod.snd).getD 2 ""
      = (((countDownWithPromiseDotThen 0).trace).map Prod.snd).getD 2 "" ∧
    (((countDownWithPromiseDotThen 0).trace).map Prod.snd).getD 3 ""
      = (((countDownWithPromiseAsyncAwait 0).trace).map Prod.snd).getD 3 "" ∧
    ((countDownWithCallback 0).map Prod.snd).getD 3 ""
      ≠ (((countDownWithPromiseDotThen 0).trace).map Prod.snd).getD 3 "" ∧
    (((countDownWithPromiseDotThen 0).trace).map Prod.snd).getD 2 ""
      ≠ (((countDownWithPromiseAsyncAwait 0).trace).map Prod.snd).getD 2 "" := by
  decide

/-- C6: the shared helper `string` turns byte data into its text form with
exactly the final character removed (`List.dropLast` on the characters), and
every file-data print of the demonstrations goes through it: the chapter-1
and chapter-2 reads, the three scavenger hunts, and the two log-chain
functions print only `string`-trimmed data. -/
theorem c6_string_trims_final_char_and_mediates_prints
    (fs : Fs) (s d1 d2 : String)
    (h1 : fs "one" = Except.ok d1) (h2 : fs (string d1) = Except.ok d2) :
    string s = ⟨s.data.dropLast⟩ ∧
    logsOf (chapter1Read fs) = [string d1] ∧
    logsOf (chapter2Read fs).trace = [string d1] ∧
    logsOf (scavengerHuntWithCallbacks fs "one") = [string d2] ∧
    logsOf (scavengerHuntWithPromiseDotThen fs "one").trace = [string d2] ∧
    logsOf (scavengerHuntWithPromiseAsyncAwait fs "one").trace = [string d2] ∧
    logsOf (logChainWithDotThen fs "one").trace
      = ["one" ++ "=>" ++ string d1 ++ "=>" ++ string d2] ∧
    logsOf (logChainWithAwait fs "one").trace
      = ["one" ++ "=>" ++ string d1 ++ "=>" ++ string d2] := by
  refine ⟨string_eq_dropLast s, ?_, ?_, ?_, ?_, ?_, ?_, ?_⟩ <;>
    simp [chapter1Read, chapter2Read, scavengerHuntWithCallbacks,
      scavengerHuntWithPromiseDotThen, scavengerHuntWithPromiseAsyncAwait,
      logChainWithDotThen, logChainWithAwait,
      pThen, pCatch, readFilePromise, logP, logsOf, h1, h2]

/-- Witness for C6 on `fsEx` and the concrete byte input `"abc\n"`. -/
theorem c6_witness :
    fsEx "one" = Except.ok "two\n" ∧ fsEx (string "two\n") = Except.ok "hello!\n" ∧
    (string "abc\n" = ⟨("abc\n".data).dropLast⟩ ∧
     logsOf (chapter1Read fsEx) = [string "two\n"] ∧
     logsOf (chapter2Read fsEx).trace = [string "two\n"] ∧
     logsOf (scavengerHuntWithCallbacks fsEx "one") = [string "hello!\n"] ∧
     logsOf (scavengerHuntWithPromiseDotThen fsEx "one").trace = [string "hello!\n"] ∧
     logsOf (scavengerHuntWithPromiseAsyncAwait fsEx "one").trace = [string "hello!\n"] ∧
     logsOf (logChainWithDotThen fsEx "one").trace
       = ["one" ++ "=>" ++ string "two\n" ++ "=>" ++ string "hello!\n"] ∧
     logsOf (logChainWithAwait fsEx "one").trace
       = ["one" ++ "=>" ++ string "two\n" ++ "=>" ++ string "hello!\n"]) :=
  ⟨rfl, rfl,
    c6_string_trims_final_char_and_mediates_prints fsEx "abc\n" "two\n" "hello!\n" rfl rfl⟩

/-- C7: during one load of the script, exactly one outbound network request
is issued, and its target is `http://www.cnn.com` (only `getCNN_async_await`
is invoked at load time; `getCNN_dot_then` is never called). -/
theorem c7_exactly_one_network_request (net : Except String Unit) :
    loadTimeRequests net = ["http://www.cnn.com"] ∧
    (loadTimeRequests net).length = 1 := by
  cases net <;> exact ⟨rfl, rfl⟩

/-- C8 counterexample: `getCNN_dot_then` and `newPromise` are demonstration
functions defined by the script that are invoked zero times at load time, so
not every demonstration function is invoked exactly once. -/
theorem c8_counterexample_two_demos_never_invoked :
    FnName.getCNN_dot_then ∈ demonstrationFunctions ∧
    loadTimeCalls.count FnName.getCNN_dot_then = 0 ∧
    FnName.newPromise ∈ demonstrationFunctions ∧
    loadTimeCalls.count FnName.newPromise = 0 := by
  decide

/-- C8 (amended): every demonstration function defined in the script is
invoked exactly once at load time, except `getCNN_dot_then` and `newPromise`,
which are defined but never invoked. -/
theorem c8_amended_each_demo_invoked_once_except_two
    (f : FnName) (hf : f ∈ demonstrationFunctions) :
    loadTimeCalls.count f =
      (if f = FnName.getCNN_dot_then ∨ f = FnName.newPromise then 0 else 1) := by
  cases f <;> decide

/-- Witness for C8 (amended) at a concrete demonstration function. -/
theorem c8_amended_witness :
    FnName.countDownWithCallback ∈ demonstrationFunctions ∧
    loadTimeCalls.count FnName.countDownWithCallback =
      (if FnName.countDownWithCallback = FnName.getCNN_dot_then ∨
          FnName.countDownWithCallback = FnName.newPromise then 0 else 1) :=
  ⟨by decide,
    c8_amended_each_demo_invoked_once_except_two FnName.countDownWithCallback (by decide)⟩

/-- C9: for every valid two-level file chain, `logChainWithDotThen` and
`logChainWithAwait` print the same single line — the first file name, the
trimmed content of the first file and the trimmed content of the second file,
joined by `=>`. -/
theorem c9_log_chain_variants_same_line
    (fs : Fs) (n d1 d2 : String)
    (h1 : fs n = Except.ok d1) (h2 : fs (string d1) = Except.ok d2) :
    logsOf (logChainWithDotThen fs n).trace
      = [n ++ "=>" ++ string d1 ++ "=>" ++ string d2] ∧
    logsOf (logChainWithAwait fs n).trace
      = [n ++ "=>" ++ string d1 ++ "=>" ++ string d2] := by
  refine ⟨?_, ?_⟩ <;>
    simp [logChainWithDotThen, logChainWithAwait, pThen, pCatch,
      readFilePromise, logP, logsOf, h1, h2]

/-- Witness for C9 on the concrete chain `fsEx`. -/
theorem c9_witness :
    fsEx "one" = Except.ok "two\n" ∧ fsEx (string "two\n") = Except.ok "hello!\n" ∧
    (logsOf (logChainWithDotThen fsEx "one").trace
       = ["one" ++ "=>" ++ string "two\n" ++ "=>" ++ string "hello!\n"] ∧
     logsOf (logChainWithAwait fsEx "one").trace
       = ["one" ++ "=>" ++ string "two\n" ++ "=>" ++ string "hello!\n"]) :=
  ⟨rfl, rfl, c9_log_chain_variants_same_line fsEx "one" "two\n" "hello!\n" rfl rfl⟩

/-- C10: for every file system and input file name, the promise returned by
`scavengerHuntWithPromiseDotThen` fulfills (with `undefined`) and never
rejects — the trailing `.catch` consumes any read error. -/
theorem c10_dot_then_scavenger_promise_always_fulfills (fs : Fs) (n : String) :
    (scavengerHuntWithPromiseDotThen fs n).result = Except.ok () := by
  cases h1 : fs n with
  | error e =>
    simp [scavengerHuntWithPromiseDotThen, pThen, pCatch, readFilePromise, logP, h1]
  | ok d1 =>
    cases h2 : fs (string d1) <;>
      simp [scavengerHuntWithPromiseDotThen, pThen, pCatch, readFilePromise, logP, h1, h2]

end Async
